import Mathlib

/-!
Shallow embedding of the adaptive sump-pump controller in
`src/pump-script.py`.  Python floats are modelled as rationals (ℚ); the
constants and all branch conditions of the source are exact in this model.
`int(x)` on the non-negative values produced by the controller is modelled
as `Int.floor` (truncation toward zero coincides with floor for x ≥ 0).
-/

namespace PumpScript

/-- Configuration constants, lines 19-41 of the source. -/
def PUMP_ON_TIME : ℚ := 45

def BASE_OFF_TIME : ℚ := 420

def MIN_OFF_TIME : ℚ := 300

def MAX_OFF_TIME : ℚ := 86400

def WORKING_POWER_THRESHOLD : ℚ := 200

def SHORT_RUN_THRESHOLD : ℚ := 8

def OPTIMAL_RUN_THRESHOLD : ℚ := 15

def LIGHT_RAIN_FACTOR : ℚ := 7/10

def HEAVY_RAIN_FACTOR : ℚ := 1/2

def HEAVY_RAIN_THRESHOLD : ℚ := 5/2

/-- The dict built by `get_weather_data` (lines 129-133): keys
`condition`, `rain_1h`, `description`. -/
structure WeatherData where
  condition : String
  rain_1h : ℚ
  description : String
  deriving DecidableEq, Repr

/-- The dict returned by `get_power_data` (lines 180-185), minus the
timestamp (never read by any consumer modelled here). -/
structure PowerData where
  power_w : ℚ
  current_a : ℚ
  voltage_v : ℚ
  deriving DecidableEq, Repr

/-- The performance dict returned by `monitor_pump_performance`
(lines 221-237), minus the raw `power_readings` list (never read by
`calculate_dynamic_off_time` or `log_to_csv` fields we model). -/
structure PerfData where
  working_time : ℚ
  total_time : ℚ
  avg_power : ℚ
  max_power : ℚ
  min_power : ℚ
  deriving DecidableEq, Repr

/-- The mutable fields of `IntelligentPumpController` set in `__init__`
(lines 44-58) that the modelled operations read or write.
`next_cycle_time` (a wall-clock timestamp) is omitted: no modelled
operation branches on it. -/
structure ControllerState where
  cycle_count : ℕ
  current_off_time : ℚ
  manual_override : Option ℚ
  override_command : Option String
  weather_data : Option WeatherData
  pump_status : String
  is_running : Bool
  healthcheck_url : String
  weather_api_key : String
  location : String
  deriving DecidableEq, Repr

/-- `__init__` defaults, lines 44-58: note that `load_config` is NOT
called from `__init__` (the `# Load configuration` comment on line 55 is
followed only by literal string assignments). -/
def initState : ControllerState :=
  { cycle_count := 0
    current_off_time := BASE_OFF_TIME
    manual_override := none
    override_command := none
    weather_data := none
    pump_status := "unknown"
    is_running := false
    healthcheck_url := ""
    weather_api_key := ""
    location := "" }

/-- The JSON object written by `save_config` (lines 98-106). -/
structure SavedConfig where
  current_off_time : ℚ
  manual_override : Option ℚ
  healthcheck_url : String
  weather_api_key : String
  location : String
  last_updated : String
  deriving DecidableEq, Repr

/-- `save_config`, lines 98-112: serialises exactly these five state
fields plus a timestamp (`now`).  `cycle_count` is not written. -/
def save_config (st : ControllerState) (now : String) : SavedConfig :=
  { current_off_time := st.current_off_time
    manual_override := st.manual_override
    healthcheck_url := st.healthcheck_url
    weather_api_key := st.weather_api_key
    location := st.location
    last_updated := now }

/-- `load_config`, lines 83-96: if the config file exists, overwrite the
five loaded fields; a missing file (or a parse error, which the
`except` swallows) leaves the state unchanged.  `cycle_count` is not
read. -/
def load_config (st : ControllerState) (file : Option SavedConfig) : ControllerState :=
  match file with
  | none => st
  | some config =>
      { st with
        current_off_time := config.current_off_time
        manual_override := config.manual_override
        healthcheck_url := config.healthcheck_url
        weather_api_key := config.weather_api_key
        location := config.location }

/-- `run_controller` (lines 451-490) together with `main` (lines 499-527):
the startup path constructs the controller via `__init__` and enters the
cycle loop directly.  No call to `load_config` occurs anywhere in the
program, so the state entering the first cycle is `initState` regardless
of any persisted config file. -/
def run_controller_initial_state (_persisted : Option SavedConfig) : ControllerState :=
  initState

/-- Python truthiness of `self.manual_override` (line 244):
`None` and `0` are falsy, every other number is truthy. -/
def overrideTruthy (st : ControllerState) : Bool :=
  match st.manual_override with
  | some v => decide (v ≠ 0)
  | none => false

/-- Python `'rain' in condition` (lines 264, 288): substring test —
some position of `condition` starts the four characters of "rain". -/
def hasRainSubstr (condition : String) : Bool :=
  (List.range (condition.length + 1)).any
    (fun i => decide ((condition.toList.drop i).take 4 = "rain".toList))

/-- The rain test shared by both weather branches (lines 264 and 288):
`'rain' in condition or rain_1h > 0`. -/
def isRainy (w : WeatherData) : Bool :=
  hasRainSubstr w.condition || decide (w.rain_1h > 0)

/-- Lines 280-296: `weather_factor` starts at 1.0 and is multiplied in
only when the snapshot is present and rainy; 0.5 for heavy rain
(`rain_1h > 2.5`), else 0.7. -/
def applyWeather (wd : Option WeatherData) (new_off_time : ℚ) : ℚ :=
  match wd with
  | some w =>
      if isRainy w then
        new_off_time *
          (if w.rain_1h > HEAVY_RAIN_THRESHOLD then HEAVY_RAIN_FACTOR else LIGHT_RAIN_FACTOR)
      else new_off_time
  | none => new_off_time

/-- Lines 278-303, the tail of the three multiplicative regimes:
`new_off_time = current_off_time * adjustment_factor`, the conditional
weather multiplication, the clamp
`max(MIN_OFF_TIME, min(MAX_OFF_TIME, new_off_time))`, and the final
`int(...)` truncation.  The state is returned unchanged on this path. -/
def afterFactor (st : ControllerState) (adjustment_factor : ℚ) : ℚ × ControllerState :=
  let new_off_time := st.current_off_time * adjustment_factor
  let new_off_time := applyWeather st.weather_data new_off_time
  let new_off_time := max MIN_OFF_TIME (min MAX_OFF_TIME new_off_time)
  (((⌊new_off_time⌋ : ℤ) : ℚ), st)

/-- Lines 258-276, the heavy-load branch: reset to 300, apply the gentler
rain correction `int(300*0.8)` / `int(300*0.9)` when rainy, floor the
result at `MIN_OFF_TIME`, and, as a side effect, set
`self.current_off_time = BASE_OFF_TIME` before returning. -/
def heavyLoadValue (wd : Option WeatherData) : ℚ :=
  let new_off_time : ℚ := 300
  let new_off_time :=
    match wd with
    | some w =>
        if isRainy w then
          if w.rain_1h > HEAVY_RAIN_THRESHOLD then ((⌊new_off_time * (4/5)⌋ : ℤ) : ℚ)
          else ((⌊new_off_time * (9/10)⌋ : ℤ) : ℚ)
        else new_off_time
    | none => new_off_time
  max MIN_OFF_TIME new_off_time

/-- Lines 248-303, the adaptive part of `calculate_dynamic_off_time`
reached when the manual override is falsy: band selection on
`working_time` (`< 8` → ×2.0, `≤ 15` → ×1.0, `≤ 30` → ×0.7, else the
heavy-load reset). -/
def calcAdaptive (st : ControllerState) (working_time : ℚ) : ℚ × ControllerState :=
  if working_time < SHORT_RUN_THRESHOLD then afterFactor st 2
  else if working_time ≤ OPTIMAL_RUN_THRESHOLD then afterFactor st 1
  else if working_time ≤ 30 then afterFactor st (7/10)
  else (heavyLoadValue st.weather_data, { st with current_off_time := BASE_OFF_TIME })

/-- `calculate_dynamic_off_time`, lines 239-303.  Reads
`performance_data['working_time']`; if `self.manual_override` is truthy
it is returned verbatim (line 246); otherwise the adaptive computation
runs.  The pair carries the returned value and the (possibly mutated)
controller state. -/
def calculate_dynamic_off_time (st : ControllerState) (performance_data : PerfData) :
    ℚ × ControllerState :=
  let working_time := performance_data.working_time
  match st.manual_override with
  | some v => if v ≠ 0 then (v, st) else calcAdaptive st working_time
  | none => calcAdaptive st working_time

/-- `monitor_pump_performance`, lines 191-237, as a pure reduction over
the list of successful power readings collected during the ON window
(a failed poll contributes no reading).  `working_time` accumulates 0.5s
per reading with `power_w > 200`; with at least one reading the
avg/max/min are over all readings; with zero readings every metric is 0. -/
def monitor_pump_performance (duration : ℚ) (power_readings : List PowerData) : PerfData :=
  let working_time : ℚ :=
    ((power_readings.filter (fun r => decide (r.power_w > WORKING_POWER_THRESHOLD))).length : ℚ)
      * (1/2)
  match power_readings with
  | [] =>
      { working_time := 0, total_time := duration, avg_power := 0, max_power := 0, min_power := 0 }
  | r :: rs =>
      let powers := (r :: rs).map PowerData.power_w
      { working_time := working_time
        total_time := duration
        avg_power := powers.sum / (powers.length : ℚ)
        max_power := (rs.map PowerData.power_w).foldl max r.power_w
        min_power := (rs.map PowerData.power_w).foldl min r.power_w }

/-- The cycle environment: outcomes of the external calls made by one
`run_cycle` invocation (lines 383-423).  `weather_fetch` is the value
`get_weather_data` stores (none on failure or when unconfigured, leaving
the previous snapshot in place); `on_success` / `off_success` are the
outcomes of `control_pump` after its internal retries; `power_readings`
are the successful telemetry polls of the ON window. -/
structure CycleEnv where
  weather_fetch : Option WeatherData
  on_success : Bool
  power_readings : List PowerData
  off_success : Bool
  deriving Repr

/-- Result of one `run_cycle` invocation: the boolean it returns, the
controller state it leaves behind, and the config written by the
`save_config()` call on line 411 (`none` when that call is never
reached). -/
structure CycleResult where
  success : Bool
  state : ControllerState
  saved : Option SavedConfig
  deriving Repr

/-- `run_cycle`, lines 383-423: increment `cycle_count`, refresh weather
(best effort), command ON — on failure return False at once (line 395);
monitor; command OFF — on failure return False at once (line 406)
WITHOUT computing or persisting anything; otherwise compute the next
off-time, store it, persist via `save_config`, and return True.
The wait loop (lines 434-448) runs after persistence and only polls
overrides; it is outside this model. -/
def run_cycle (env : CycleEnv) (now : String) (st : ControllerState) : CycleResult :=
  let st := { st with cycle_count := st.cycle_count + 1 }
  let st :=
    match env.weather_fetch with
    | some w => { st with weather_data := some w }
    | none => st
  if env.on_success = false then
    { success := false, state := st, saved := none }
  else
    let st := { st with pump_status := "on" }
    let performance_data := monitor_pump_performance PUMP_ON_TIME env.power_readings
    if env.off_success = false then
      { success := false, state := st, saved := none }
    else
      let st := { st with pump_status := "off" }
      let res := calculate_dynamic_off_time st performance_data
      let st := { res.2 with current_off_time := res.1 }
      { success := true, state := st, saved := some (save_config st now) }

/-- `check_override_commands`, lines 353-381: dispatch on the command
string read from the override file (already stripped and lowered).
Python `command.split()` is modelled as splitting on spaces and dropping
empty parts; `str.isdigit` as nonempty-and-all-digits. -/
def pyIsDigit (s : String) : Bool :=
  s.length > 0 && s.toList.all Char.isDigit

def pySplit (s : String) : List String :=
  (s.splitOn " ").filter (fun p => p ≠ "")

def check_override_commands (st : ControllerState) (file : Option String) : ControllerState :=
  match file with
  | none => st
  | some command =>
      if command = "stop" then { st with is_running := false }
      else if command = "normal" then { st with manual_override := none }
      else if command.take 4 = "wait" then
        match pySplit command with
        | [_, m] =>
            if pyIsDigit m then
              { st with manual_override := some (((m.toNat?).getD 0 : ℕ) * 60) }
            else st
        | _ => st
      else if command = "pump_now" then { st with override_command := some "pump_now" }
      else st

/-! ## Helper lemmas shared by several claims -/

/-- If the override is falsy it is `None` or exactly `0`. -/
lemma override_falsy_cases (st : ControllerState) (h : overrideTruthy st = false) :
    st.manual_override = none ∨ st.manual_override = some 0 := by
  unfold overrideTruthy at h
  cases hm : st.manual_override with
  | none => exact Or.inl rfl
  | some v =>
      rw [hm] at h
      simp at h
      rw [h]
      exact Or.inr rfl

/-- With a falsy override the policy runs the adaptive computation. -/
lemma calc_of_not_truthy (st : ControllerState) (perf : PerfData)
    (h : overrideTruthy st = false) :
    calculate_dynamic_off_time st perf = calcAdaptive st perf.working_time := by
  rcases override_falsy_cases st h with hm | hm <;>
    simp [calculate_dynamic_off_time, hm]

/-- With a truthy override the policy returns it verbatim, state untouched. -/
lemma calc_of_truthy (st : ControllerState) (perf : PerfData) (v : ℚ)
    (hm : st.manual_override = some v) (hv : v ≠ 0) :
    calculate_dynamic_off_time st perf = (v, st) := by
  simp [calculate_dynamic_off_time, hm, hv]

lemma calcAdaptive_band1 (st : ControllerState) (wt : ℚ) (h : wt < 8) :
    calcAdaptive st wt = afterFactor st 2 := by
  unfold calcAdaptive SHORT_RUN_THRESHOLD OPTIMAL_RUN_THRESHOLD
  split_ifs with g1 g2 g3 <;> first | rfl | linarith

lemma calcAdaptive_band2 (st : ControllerState) (wt : ℚ) (h1 : 8 ≤ wt) (h2 : wt ≤ 15) :
    calcAdaptive st wt = afterFactor st 1 := by
  unfold calcAdaptive SHORT_RUN_THRESHOLD OPTIMAL_RUN_THRESHOLD
  split_ifs with g1 g2 g3 <;> first | rfl | linarith

lemma calcAdaptive_band3 (st : ControllerState) (wt : ℚ) (h1 : 15 < wt) (h2 : wt ≤ 30) :
    calcAdaptive st wt = afterFactor st (7/10) := by
  unfold calcAdaptive SHORT_RUN_THRESHOLD OPTIMAL_RUN_THRESHOLD
  split_ifs with g1 g2 g3 <;> first | rfl | linarith

lemma calcAdaptive_heavy (st : ControllerState) (wt : ℚ) (h : 30 < wt) :
    calcAdaptive st wt =
      (heavyLoadValue st.weather_data, { st with current_off_time := BASE_OFF_TIME }) := by
  unfold calcAdaptive SHORT_RUN_THRESHOLD OPTIMAL_RUN_THRESHOLD
  split_ifs with g1 g2 g3 <;> first | rfl | linarith

/-- The heavy-load value is 300 for EVERY weather input: the 0.8 / 0.9
corrections give 240 / 270, which the `max MIN_OFF_TIME` floor lifts
back to 300. -/
lemma heavyLoadValue_eq_300 (wd : Option WeatherData) : heavyLoadValue wd = 300 := by
  cases wd with
  | none =>
      show max MIN_OFF_TIME 300 = 300
      norm_num [MIN_OFF_TIME]
  | some w =>
      show (max MIN_OFF_TIME
        (if isRainy w then
          if w.rain_1h > HEAVY_RAIN_THRESHOLD then (((⌊(300:ℚ) * (4/5)⌋ : ℤ)) : ℚ)
          else (((⌊(300:ℚ) * (9/10)⌋ : ℤ)) : ℚ)
        else 300)) = 300
      split_ifs with g1 g2
      · rw [show ((300:ℚ) * (4/5)) = ((240:ℤ):ℚ) by norm_num, Int.floor_intCast]
        unfold MIN_OFF_TIME
        rw [max_eq_left (by norm_num : (((240:ℤ):ℚ)) ≤ 300)]
      · rw [show ((300:ℚ) * (9/10)) = ((270:ℤ):ℚ) by norm_num, Int.floor_intCast]
        unfold MIN_OFF_TIME
        rw [max_eq_left (by norm_num : (((270:ℤ):ℚ)) ≤ 300)]
      · norm_num [MIN_OFF_TIME]

/-- The multiplicative-regime value when heavy-load is excluded. -/
lemma calc_heavy_val (st : ControllerState) (perf : PerfData)
    (h : overrideTruthy st = false) (hw : 30 < perf.working_time) :
    (calculate_dynamic_off_time st perf).1 = 300 := by
  rw [calc_of_not_truthy st perf h, calcAdaptive_heavy st _ hw]
  exact heavyLoadValue_eq_300 _

/-- The weather factor of §4.3 step 3 as a standalone value: 0.5 for
heavy rain, 0.7 for light rain, 1 otherwise. -/
def weatherFactorSpec (wd : Option WeatherData) : ℚ :=
  match wd with
  | some w =>
      if isRainy w then
        (if w.rain_1h > HEAVY_RAIN_THRESHOLD then HEAVY_RAIN_FACTOR else LIGHT_RAIN_FACTOR)
      else 1
  | none => 1

lemma applyWeather_eq (wd : Option WeatherData) (x : ℚ) :
    applyWeather wd x = x * weatherFactorSpec wd := by
  cases wd with
  | none =>
      show x = x * 1
      ring
  | some w =>
      show (if isRainy w then
          x * (if w.rain_1h > HEAVY_RAIN_THRESHOLD then HEAVY_RAIN_FACTOR else LIGHT_RAIN_FACTOR)
        else x) =
        x * (if isRainy w then
          (if w.rain_1h > HEAVY_RAIN_THRESHOLD then HEAVY_RAIN_FACTOR else LIGHT_RAIN_FACTOR)
        else 1)
      split_ifs <;> ring

lemma afterFactor_val (st : ControllerState) (f : ℚ) :
    (afterFactor st f).1 =
      ((⌊max MIN_OFF_TIME (min MAX_OFF_TIME
          (st.current_off_time * f * weatherFactorSpec st.weather_data))⌋ : ℤ) : ℚ) := by
  show ((⌊max MIN_OFF_TIME (min MAX_OFF_TIME
      (applyWeather st.weather_data (st.current_off_time * f)))⌋ : ℤ) : ℚ) = _
  rw [applyWeather_eq]

/-- Clamp-then-floor always lands in `[300, 86400]`. -/
lemma clamp_floor_bounds (x : ℚ) :
    (300:ℚ) ≤ ((⌊max MIN_OFF_TIME (min MAX_OFF_TIME x)⌋ : ℤ) : ℚ) ∧
    ((⌊max MIN_OFF_TIME (min MAX_OFF_TIME x)⌋ : ℤ) : ℚ) ≤ 86400 := by
  have h1 : (300:ℚ) ≤ max MIN_OFF_TIME (min MAX_OFF_TIME x) := by
    simpa [MIN_OFF_TIME] using le_max_left MIN_OFF_TIME (min MAX_OFF_TIME x)
  have h2 : max MIN_OFF_TIME (min MAX_OFF_TIME x) ≤ 86400 := by
    apply max_le
    · norm_num [MIN_OFF_TIME]
    · simpa [MAX_OFF_TIME] using min_le_left MAX_OFF_TIME x
  constructor
  · have h3 : (300:ℤ) ≤ ⌊max MIN_OFF_TIME (min MAX_OFF_TIME x)⌋ := by
      rw [Int.le_floor]
      exact_mod_cast h1
    exact_mod_cast h3
  · calc ((⌊max MIN_OFF_TIME (min MAX_OFF_TIME x)⌋ : ℤ) : ℚ)
        ≤ max MIN_OFF_TIME (min MAX_OFF_TIME x) := Int.floor_le _
      _ ≤ 86400 := h2

lemma afterFactor_bounds (st : ControllerState) (f : ℚ) :
    (300:ℚ) ≤ (afterFactor st f).1 ∧ (afterFactor st f).1 ≤ 86400 := by
  unfold afterFactor
  exact clamp_floor_bounds _

/-! ## Concrete inputs used in witnesses and counterexamples -/

/-- A performance summary with 5s working time (spec Scenario A). -/
def perf5 : PerfData :=
  { working_time := 5, total_time := 45, avg_power := 0, max_power := 0, min_power := 0 }

/-- A performance summary with 45s working time (heavy load). -/
def perf45 : PerfData :=
  { working_time := 45, total_time := 45, avg_power := 0, max_power := 0, min_power := 0 }

/-- A persisted config whose off-time (600s) differs from the baseline. -/
def cfg600 : SavedConfig :=
  { current_off_time := 600, manual_override := none, healthcheck_url := "",
    weather_api_key := "", location := "", last_updated := "" }

/-- A state whose manual override is set to exactly 0 (reachable via the
override command "wait 0": `"0".isdigit()` holds, so
`manual_override = 0*60 = 0`). -/
def stZeroOverride : ControllerState := { initState with manual_override := some 0 }

/-- A state whose manual override is 60s (override command "wait 1"). -/
def stOv60 : ControllerState := { initState with manual_override := some 60 }

/-- A state whose manual override is 600s (override command "wait 10"). -/
def stOv600 : ControllerState := { initState with manual_override := some 600 }

/-- A state with a non-baseline off-time, for the heavy-load mutation. -/
def stHeavy1000 : ControllerState := { initState with current_off_time := 1000 }

/-- A state carrying a nonzero cycle count and non-default off-time. -/
def stCycle5 : ControllerState :=
  { initState with cycle_count := 5, current_off_time := 600 }

/-- A cycle in which pump ON succeeds and pump OFF fails after retries. -/
def envOffFail : CycleEnv :=
  { weather_fetch := none, on_success := true, power_readings := [], off_success := false }

/-! ## Claims -/

/-- Claim C1 (code_bug): the spec says the persisted ControllerState is
reloaded at process start so a restart resumes with the last persisted
off-time.  The code defines `load_config` (which would do exactly that,
second conjunct) but never calls it: the startup path of
`run_controller`/`main` enters the first cycle with the `__init__`
defaults, so even with a persisted off-time of 600s the controller
starts at the 420s baseline (first conjunct). -/
theorem startup_ignores_persisted_config :
    (run_controller_initial_state (some cfg600)).current_off_time = 420 ∧
    (load_config initState (some cfg600)).current_off_time = 600 ∧
    (run_controller_initial_state (some cfg600)).current_off_time ≠
      (load_config initState (some cfg600)).current_off_time := by
  refine ⟨rfl, rfl, by decide⟩

/-- Claim C2 (counterexample): persisting a state with `cycle_count = 5`
and reloading it at startup does NOT restore the cycle count —
`save_config` never writes it and `load_config` never reads it, so the
reloaded state carries the `__init__` value 0. -/
theorem roundtrip_drops_cycle_count :
    stCycle5.cycle_count = 5 ∧
    (load_config initState (some (save_config stCycle5 ""))).cycle_count ≠
      stCycle5.cycle_count := by
  refine ⟨rfl, by decide⟩

/-- Claim C2 (amended): the save/load round-trip restores
`current_off_time` and `manual_override` exactly, but `cycle_count` is
not part of the persisted form — a reload at startup always yields
`cycle_count = 0`. -/
theorem roundtrip_preserves_off_time_and_override (st : ControllerState) (now : String) :
    (load_config initState (some (save_config st now))).current_off_time =
      st.current_off_time ∧
    (load_config initState (some (save_config st now))).manual_override =
      st.manual_override ∧
    (load_config initState (some (save_config st now))).cycle_count = 0 :=
  ⟨rfl, rfl, rfl⟩

/-- Claim C3 (counterexample): in a concrete cycle where pump ON succeeds
and pump OFF fails after its retries, `run_cycle` returns failure with
no config written — contradicting the claim that the cycle proceeds to
compute and persist the next off-time. -/
theorem off_failure_aborts_cycle_concrete :
    (run_cycle envOffFail "" initState).saved = none ∧
    (run_cycle envOffFail "" initState).success = false := by
  refine ⟨rfl, rfl⟩

/-- Claim C3 (amended): when the pump-OFF command fails after exhausting
its retries, `run_cycle` aborts immediately (line 406): it returns False,
never reaches `calculate_dynamic_off_time` or `save_config`, and leaves
`current_off_time` unchanged; the collected performance data is
discarded and the outer loop retries the cycle after the cool-down. -/
theorem off_failure_skips_compute_and_persist (env : CycleEnv) (now : String)
    (st : ControllerState) (hon : env.on_success = true) (hoff : env.off_success = false) :
    (run_cycle env now st).saved = none ∧
    (run_cycle env now st).success = false ∧
    (run_cycle env now st).state.current_off_time = st.current_off_time := by
  cases hw : env.weather_fetch <;> simp [run_cycle, hw, hon, hoff]

/-- Witness for the amended C3 at a concrete failing-OFF cycle. -/
theorem off_failure_skips_compute_and_persist_witness :
    (run_cycle envOffFail "" initState).saved = none ∧
    (run_cycle envOffFail "" initState).success = false ∧
    (run_cycle envOffFail "" initState).state.current_off_time =
      initState.current_off_time :=
  off_failure_skips_compute_and_persist envOffFail "" initState rfl rfl

/-- Claim C4 (counterexample): with a manual override of 60s (override
command "wait 1") the policy returns 60, which lies below the claimed
lower bound of 300 — the bounds law fails for inputs with a nonzero
manual override, since the override is returned verbatim. -/
theorem override_result_below_min_bound :
    (calculate_dynamic_off_time stOv60 perf5).1 = 60 ∧
    ¬ ((300:ℚ) ≤ (calculate_dynamic_off_time stOv60 perf5).1) := by
  have h60 : (calculate_dynamic_off_time stOv60 perf5).1 = 60 := rfl
  refine ⟨h60, ?_⟩
  rw [h60]
  norm_num

/-- Claim C4 (amended): for every performance summary, every
current_off_time and every weather input, whenever the manual override
is falsy (unset, or set to exactly 0) the policy result lies within
[300, 86400]; a nonzero manual override is returned verbatim and may
lie outside these bounds. -/
theorem bounds_law_without_override (st : ControllerState) (perf : PerfData)
    (h : overrideTruthy st = false) :
    (300:ℚ) ≤ (calculate_dynamic_off_time st perf).1 ∧
    (calculate_dynamic_off_time st perf).1 ≤ 86400 := by
  rw [calc_of_not_truthy st perf h]
  rcases lt_or_le perf.working_time 8 with h1 | h1
  · rw [calcAdaptive_band1 st _ h1]
    exact afterFactor_bounds st 2
  rcases le_or_lt perf.working_time 15 with h2 | h2
  · rw [calcAdaptive_band2 st _ h1 h2]
    exact afterFactor_bounds st 1
  rcases le_or_lt perf.working_time 30 with h3 | h3
  · rw [calcAdaptive_band3 st _ h2 h3]
    exact afterFactor_bounds st (7/10)
  · have hv : (calcAdaptive st perf.working_time).1 = 300 := by
      rw [calcAdaptive_heavy st _ h3]
      exact heavyLoadValue_eq_300 _
    rw [hv]
    exact ⟨le_refl _, by norm_num⟩

/-- Witness for the amended C4 at Scenario A's inputs. -/
theorem bounds_law_without_override_witness :
    (300:ℚ) ≤ (calculate_dynamic_off_time initState perf5).1 ∧
    (calculate_dynamic_off_time initState perf5).1 ≤ 86400 :=
  bounds_law_without_override initState perf5 rfl

/-- Claim C5 (counterexample): an override set to exactly 0 (deposited by
the command "wait 0") is NOT returned: Python truthiness treats 0 as
unset, and the adaptive computation returns 840 instead. -/
theorem zero_override_not_returned :
    stZeroOverride.manual_override = some 0 ∧
    (calculate_dynamic_off_time stZeroOverride perf5).1 = 840 ∧
    (calculate_dynamic_off_time stZeroOverride perf5).1 ≠ 0 := by
  have h840 : (calculate_dynamic_off_time stZeroOverride perf5).1 = 840 := by
    rw [show calculate_dynamic_off_time stZeroOverride perf5 = afterFactor stZeroOverride 2
        from rfl]
    rw [show (afterFactor stZeroOverride 2).1 =
        ((⌊max MIN_OFF_TIME (min MAX_OFF_TIME (applyWeather none (420 * 2)))⌋ : ℤ) : ℚ)
        from rfl]
    rw [show applyWeather none ((420:ℚ) * 2) = 840 by norm_num [applyWeather]]
    rfl
  refine ⟨rfl, h840, ?_⟩
  rw [h840]
  norm_num

/-- Claim C5 (amended): whenever the manual override is set to a NONZERO
value it is returned unmodified — taking precedence over performance
regimes, weather factors and the global bounds — and the controller
state is left unchanged; an override of exactly 0 is falsy and is
ignored. -/
theorem nonzero_override_precedence (st : ControllerState) (perf : PerfData) (v : ℚ)
    (hm : st.manual_override = some v) (hv : v ≠ 0) :
    calculate_dynamic_off_time st perf = (v, st) :=
  calc_of_truthy st perf v hm hv

/-- Witness for the amended C5: override 600s beats a 2s working time. -/
theorem nonzero_override_precedence_witness :
    calculate_dynamic_off_time stOv600 perf5 = (600, stOv600) :=
  nonzero_override_precedence stOv600 perf5 600 rfl (by norm_num)

/-- Claim C6 (confirmed): with a falsy override the regime is selected by
`working_time` alone with exact band boundaries — `< 8s` multiplies
`current_off_time` by 2.0, `8s ≤ wt ≤ 15s` by 1.0, `15s < wt ≤ 30s` by
0.7 (each then weather-adjusted and clamped), and `wt > 30s` resets to
the 300s baseline (the result is 300, independent of
`current_off_time`, not a multiplicative step). -/
theorem regime_band_selection (st : ControllerState) (perf : PerfData)
    (h : overrideTruthy st = false) :
    (perf.working_time < 8 →
      (calculate_dynamic_off_time st perf).1 =
        ((⌊max MIN_OFF_TIME (min MAX_OFF_TIME
            (st.current_off_time * 2 * weatherFactorSpec st.weather_data))⌋ : ℤ) : ℚ)) ∧
    (8 ≤ perf.working_time → perf.working_time ≤ 15 →
      (calculate_dynamic_off_time st perf).1 =
        ((⌊max MIN_OFF_TIME (min MAX_OFF_TIME
            (st.current_off_time * 1 * weatherFactorSpec st.weather_data))⌋ : ℤ) : ℚ)) ∧
    (15 < perf.working_time → perf.working_time ≤ 30 →
      (calculate_dynamic_off_time st perf).1 =
        ((⌊max MIN_OFF_TIME (min MAX_OFF_TIME
            (st.current_off_time * (7/10) * weatherFactorSpec st.weather_data))⌋ : ℤ) : ℚ)) ∧
    (30 < perf.working_time → (calculate_dynamic_off_time st perf).1 = 300) := by
  refine ⟨fun h1 => ?_, fun h1 h2 => ?_, fun h1 h2 => ?_, fun h1 => ?_⟩
  · rw [calc_of_not_truthy st perf h, calcAdaptive_band1 st _ h1, afterFactor_val]
  · rw [calc_of_not_truthy st perf h, calcAdaptive_band2 st _ h1 h2, afterFactor_val]
  · rw [calc_of_not_truthy st perf h, calcAdaptive_band3 st _ h1 h2, afterFactor_val]
  · exact calc_heavy_val st perf h h1

/-- Witness for C6 in the insufficient-work band at Scenario A inputs. -/
theorem regime_band_selection_witness :
    (calculate_dynamic_off_time initState perf5).1 =
      ((⌊max MIN_OFF_TIME (min MAX_OFF_TIME
          (initState.current_off_time * 2 * weatherFactorSpec initState.weather_data))⌋ : ℤ) : ℚ) :=
  (regime_band_selection initState perf5 rfl).1 (by norm_num [perf5])

/-- Claim C7 (counterexample): the policy is NOT free of state effects —
on a heavy-load input (working_time 45s) with `current_off_time = 1000`
it overwrites `current_off_time` with the 420s baseline (line 274 of
the source), so the state after the call differs from the state
before. -/
theorem heavy_load_mutates_current_off_time :
    ((calculate_dynamic_off_time stHeavy1000 perf45).2).current_off_time = 420 ∧
    (calculate_dynamic_off_time stHeavy1000 perf45).2 ≠ stHeavy1000 := by
  have hst : (calculate_dynamic_off_time stHeavy1000 perf45).2 =
      { stHeavy1000 with current_off_time := BASE_OFF_TIME } := by
    rw [calc_of_not_truthy stHeavy1000 perf45 rfl,
      calcAdaptive_heavy _ _ (by norm_num [perf45])]
  refine ⟨by rw [hst]; rfl, ?_⟩
  rw [hst]
  intro hcon
  have hproj := congrArg ControllerState.current_off_time hcon
  norm_num [stHeavy1000, initState, BASE_OFF_TIME] at hproj

/-- Claim C7 (amended): the policy returns the next off-time and leaves
the controller state unchanged EXCEPT in the heavy-load regime (falsy
override and working_time > 30s), where it additionally resets
`current_off_time` to the 420s base as a side effect; in the override
and the three multiplicative regimes every state field is unchanged. -/
theorem policy_state_frame (st : ControllerState) (perf : PerfData) :
    (calculate_dynamic_off_time st perf).2 =
      if overrideTruthy st = false ∧ 30 < perf.working_time then
        { st with current_off_time := BASE_OFF_TIME }
      else st := by
  by_cases ht : overrideTruthy st = false
  · rw [calc_of_not_truthy st perf ht]
    rcases lt_or_le perf.working_time 8 with h1 | h1
    · rw [calcAdaptive_band1 st _ h1, if_neg (by rintro ⟨-, hgt⟩; linarith)]
      rfl
    rcases le_or_lt perf.working_time 15 with h2 | h2
    · rw [calcAdaptive_band2 st _ h1 h2, if_neg (by rintro ⟨-, hgt⟩; linarith)]
      rfl
    rcases le_or_lt perf.working_time 30 with h3 | h3
    · rw [calcAdaptive_band3 st _ h2 h3, if_neg (by rintro ⟨-, hgt⟩; linarith)]
      rfl
    · rw [calcAdaptive_heavy st _ h3, if_pos ⟨ht, h3⟩]
  · obtain ⟨v, hm, hv⟩ : ∃ v, st.manual_override = some v ∧ v ≠ 0 := by
      unfold overrideTruthy at ht
      cases hm : st.manual_override with
      | none => rw [hm] at ht; simp at ht
      | some v =>
          rw [hm] at ht
          refine ⟨v, rfl, ?_⟩
          have hd : decide (v ≠ 0) = true := by
            cases hdd : decide (v ≠ 0) with
            | true => rfl
            | false => exact absurd hdd ht
          exact of_decide_eq_true hd
    rw [calc_of_truthy st perf v hm hv, if_neg (fun hcon => ht hcon.1)]

/-- Claim C8 (confirmed): two states differing only in
`current_off_time`, both with a falsy override, fed the same heavy-load
summary (working_time > 30s) and the same weather, produce the same
policy output — the heavy-load branch never reads `current_off_time`. -/
theorem heavy_load_ignores_current_off_time (st : ControllerState) (perf : PerfData)
    (c₁ c₂ : ℚ) (h : overrideTruthy st = false) (hw : 30 < perf.working_time) :
    (calculate_dynamic_off_time { st with current_off_time := c₁ } perf).1 =
    (calculate_dynamic_off_time { st with current_off_time := c₂ } perf).1 := by
  have h₁ : overrideTruthy { st with current_off_time := c₁ } = false := h
  have h₂ : overrideTruthy { st with current_off_time := c₂ } = false := h
  rw [calc_heavy_val _ perf h₁ hw, calc_heavy_val _ perf h₂ hw]

/-- Witness for C8 at off-times 1000s vs 3000s. -/
theorem heavy_load_ignores_current_off_time_witness :
    (calculate_dynamic_off_time { initState with current_off_time := 1000 } perf45).1 =
    (calculate_dynamic_off_time { initState with current_off_time := 3000 } perf45).1 :=
  heavy_load_ignores_current_off_time initState perf45 1000 3000 rfl (by norm_num [perf45])

/-- Claim C9 (confirmed): with zero collected samples the aggregator
returns the all-zero summary (no error path exists), and the policy
treats that summary exactly like any other summary with
working_time < 8s — both run the insufficient-working-time branch. -/
theorem zero_samples_summary_and_policy (d : ℚ) (st : ControllerState) (perf : PerfData)
    (h : overrideTruthy st = false) (hw : perf.working_time < 8) :
    (monitor_pump_performance d []).working_time = 0 ∧
    (monitor_pump_performance d []).avg_power = 0 ∧
    (monitor_pump_performance d []).max_power = 0 ∧
    (monitor_pump_performance d []).min_power = 0 ∧
    calculate_dynamic_off_time st (monitor_pump_performance d []) =
      calculate_dynamic_off_time st perf := by
  refine ⟨rfl, rfl, rfl, rfl, ?_⟩
  rw [calc_of_not_truthy st _ h, calc_of_not_truthy st perf h]
  rw [show (monitor_pump_performance d []).working_time = 0 from rfl]
  rw [calcAdaptive_band1 st 0 (by norm_num), calcAdaptive_band1 st _ hw]

/-- Witness for C9: an empty 45s window versus Scenario A's summary. -/
theorem zero_samples_summary_and_policy_witness :
    (monitor_pump_performance 45 []).working_time = 0 ∧
    (monitor_pump_performance 45 []).avg_power = 0 ∧
    (monitor_pump_performance 45 []).max_power = 0 ∧
    (monitor_pump_performance 45 []).min_power = 0 ∧
    calculate_dynamic_off_time initState (monitor_pump_performance 45 []) =
      calculate_dynamic_off_time initState perf5 :=
  zero_samples_summary_and_policy 45 initState perf5 rfl (by norm_num [perf5])

/-- Claim C10 (confirmed): in the heavy-load regime (falsy override,
working_time > 30s) the policy returns exactly 300 seconds for EVERY
weather input — the 0.8/0.9 rain corrections yield 240/270, which the
`max(MIN_OFF_TIME, ...)` clamp lifts back to 300. -/
theorem heavy_load_returns_exactly_300 (st : ControllerState) (perf : PerfData)
    (h : overrideTruthy st = false) (hw : 30 < perf.working_time) :
    (calculate_dynamic_off_time st perf).1 = 300 :=
  calc_heavy_val st perf h hw

/-- Witness for C10 under heavy rain, where the 0.8 correction applies. -/
theorem heavy_load_returns_exactly_300_witness :
    (calculate_dynamic_off_time { initState with
        weather_data := some { condition := "rain", rain_1h := 5, description := "heavy rain" } }
      perf45).1 = 300 :=
  heavy_load_returns_exactly_300 _ perf45 rfl (by norm_num [perf45])

end PumpScript
